import Mathlib

/-!
Verification of the BC Hydro Home Assistant integration (api.py,
coordinator.py, types.py, exceptions.py).

The development shallowly embeds the client: the dataclasses of types.py
become structures, Python floats are modelled exactly as rationals,
`datetime` values at the day granularity the parser produces, and the
BeautifulSoup document by the only queries the code performs on it.  The
stateful `BCHydroApi` object becomes explicit state passing over
`ApiState`, with environment records standing for what the portal returns
through the browser; raised exceptions become `Except` results.
-/

namespace BCHydro

/-- Calendar date at day granularity: the only components of the Python
`datetime` values that `_parse_consumption_data` produces via
`datetime.strptime(date_str, "%b %d, %Y")`. -/
structure Date where
  year : Nat
  month : Nat
  day : Nat
deriving DecidableEq, Repr

/-- `BCHydroRates` (src/types.py): static tiered-rate constants. -/
structure BCHydroRates where
  step1_rate : ℚ
  step2_rate : ℚ
  threshold : ℚ
deriving DecidableEq, Repr

/-- `BCHydroInterval` (src/types.py): start/end timestamps with an optional
billing-period end, defaulted to `None`. -/
structure BCHydroInterval where
  start : Date
  «end» : Date
  billing_period_end : Option Date := none
deriving DecidableEq, Repr

/-- `BCHydroDailyElectricity` (src/types.py): one row of daily usage;
`is_estimate` defaults to false. -/
structure BCHydroDailyElectricity where
  consumption : ℚ
  cost : ℚ
  interval : BCHydroInterval
  is_estimate : Bool := false
deriving DecidableEq, Repr

/-- `BCHydroAccount` (src/types.py); the `address` dict is an opaque
key-value map. -/
structure BCHydroAccount where
  account_id : String
  first_name : String
  last_name : String
  status : String
  address : List (String × String)
deriving DecidableEq, Repr

/-- `BCHydroDailyUsage` (src/types.py).  The `account` field is typed
`BCHydroAccount` there, but the client passes `self._account`, an
`Optional` that is never assigned, so the field is modelled as optional. -/
structure BCHydroDailyUsage where
  account : Option BCHydroAccount
  interval : BCHydroInterval
  rates : BCHydroRates
  electricity : List BCHydroDailyElectricity
deriving DecidableEq, Repr

/-- The exception kinds of src/exceptions.py that the HTML flow raises,
plus `webdriver` for selenium-level exceptions (TimeoutException,
WebDriverException) that the code catches or wraps.  Each carries its
message, Python's `str(err)`. -/
inductive PyError where
  | authException (msg : String)
  | invalidHtmlException (msg : String)
  | alertDialogException (msg : String)
  | webdriver (msg : String)
deriving DecidableEq, Repr

/-- Python `str(err)`: an exception's message. -/
def PyError.message : PyError → String
  | .authException m => m
  | .invalidHtmlException m => m
  | .alertDialogException m => m
  | .webdriver m => m

/-! ### The document model

`refresh` hands `BeautifulSoup(table_html, "html.parser")` to
`_check_for_errors` and `_parse_consumption_data`.  Those two functions
query the document only through `select(".alert.error:not(.hidden)")`,
`find(id="consumptionTable")`, `find_all("tr")`, `find_all("td")` and
`get_text(strip=True)`, so the document is modelled by the answers to
exactly those queries. -/

/-- One `<tr>` as the parser sees it: the text content of each of its
`<td>` cells, in order (before the `get_text(strip=True)` stripping, which
is applied at the call sites as in the code). -/
structure HtmlRow where
  cells : List String
deriving DecidableEq, Repr

/-- The element with id `consumptionTable`: its `<tr>` rows in document
order, header row included. -/
structure HtmlTable where
  rows : List HtmlRow
deriving DecidableEq, Repr

/-- The parsed document, modelled by the only queries performed on it:
`errorAlerts` holds the text of each element matching
`.alert.error:not(.hidden)` (in document order), `consumptionTable` the
element with id `consumptionTable` when one exists. -/
structure Soup where
  errorAlerts : List String
  consumptionTable : Option HtmlTable
deriving DecidableEq, Repr

/-- `BeautifulSoup("", "html.parser")`: the empty document has no
elements, so no alert matches and no element has id `consumptionTable`. -/
def emptySoup : Soup := ⟨[], none⟩

/-! ### Python string and number primitives

Implemented structurally over `List Char` so every definition reduces in
the kernel. -/

/-- The whitespace set of Python's `str.strip()` (and of
`get_text(strip=True)`). -/
def pyIsSpace (c : Char) : Bool :=
  c = ' ' || c = '\t' || c = '\n' || c = '\r' || c = '\x0b' || c = '\x0c'

/-- Strip leading and trailing whitespace from a character list. -/
def stripChars (cs : List Char) : List Char :=
  ((cs.dropWhile pyIsSpace).reverse.dropWhile pyIsSpace).reverse

/-- Python `s.strip()`; also models `get_text(strip=True)` on a cell or
alert element whose content is a single text node. -/
def pyStrip (s : String) : String := ⟨stripChars s.data⟩

/-- `s.replace("$", "")`: removes every occurrence of the one-character
pattern. -/
def pyRemoveDollar (s : String) : String := ⟨s.data.filter (fun c => c ≠ '$')⟩

/-- Value of a digit run, most significant first (used only on all-digit
runs). -/
def digitsToNat (ds : List Char) : Nat :=
  ds.foldl (fun a c => 10 * a + (c.toNat - 48)) 0

/-- A nonempty all-digit run, or failure. -/
def digitRun (ds : List Char) : Option Nat :=
  if ds ≠ [] && ds.all Char.isDigit then some (digitsToNat ds) else none

/-- Python `float(s)` on the decimal shapes the portal table carries:
optional sign, integer digits, optional fractional part ("5", "5.", ".5",
"123.45"); anything else raises ValueError, modelled as `none`.  Forms
`float` also accepts (exponents, inf/nan, underscores) never occur in the
claims and are omitted.  The value is kept exact as a rational. -/
def pyFloat (s : String) : Option ℚ :=
  let signed : Bool × List Char :=
    match s.data with
    | '-' :: t => (true, t)
    | '+' :: t => (false, t)
    | cs => (false, cs)
  let intDigits := signed.2.takeWhile Char.isDigit
  let decimalValue : List Char → ℚ := fun fracDigits =>
    let q := mkRat (digitsToNat intDigits * 10 ^ fracDigits.length +
      digitsToNat fracDigits) (10 ^ fracDigits.length)
    if signed.1 then -q else q
  match signed.2.drop intDigits.length with
  | [] =>
    if intDigits.isEmpty then none
    else some (decimalValue [])
  | '.' :: fracRest =>
    let fracDigits := fracRest.takeWhile Char.isDigit
    if !(fracRest.drop fracDigits.length).isEmpty then none
    else if intDigits.isEmpty && fracDigits.isEmpty then none
    else some (decimalValue fracDigits)
  | _ => none

/-- Split a character list on single spaces (the separators of the
`"%b %d, %Y"` format). -/
def splitSpaces : List Char → List Char → List (List Char)
  | [], acc => [acc.reverse]
  | ' ' :: rest, acc => acc.reverse :: splitSpaces rest []
  | c :: rest, acc => splitSpaces rest (c :: acc)

/-- `%b`: the abbreviated month names `strptime` accepts. -/
def monthNumber : List Char → Option Nat
  | ['J', 'a', 'n'] => some 1
  | ['F', 'e', 'b'] => some 2
  | ['M', 'a', 'r'] => some 3
  | ['A', 'p', 'r'] => some 4
  | ['M', 'a', 'y'] => some 5
  | ['J', 'u', 'n'] => some 6
  | ['J', 'u', 'l'] => some 7
  | ['A', 'u', 'g'] => some 8
  | ['S', 'e', 'p'] => some 9
  | ['O', 'c', 't'] => some 10
  | ['N', 'o', 'v'] => some 11
  | ['D', 'e', 'c'] => some 12
  | _ => none

/-- `datetime.strptime(s, "%b %d, %Y")` restricted to its effect on the
claims: month abbreviation, a space, day digits, a comma, a space, year
digits; any other shape, or a day outside 1..31, raises ValueError,
modelled as `none`.  (strptime is additionally case-insensitive on the
month name, matches runs of whitespace for the format's spaces, and
rejects a day invalid for the specific month; no claim depends on those
inputs.) -/
def pyStrptimeDate (s : String) : Option Date :=
  match splitSpaces s.data [] with
  | [m, d, y] =>
    match d.reverse with
    | ',' :: dRev =>
      match monthNumber m, digitRun dRev.reverse, digitRun y with
      | some mo, some dd, some yy =>
        if 1 ≤ dd ∧ dd ≤ 31 then some ⟨yy, mo, dd⟩ else none
      | _, _, _ => none
    | _ => none
  | _ => none

/-! ### The markup parser (src/api.py) -/

/-- One iteration of the row loop of `BCHydroApi._parse_consumption_data`
(src/api.py): a row with fewer than 4 cells is skipped (`continue`); the
consumption cell and the cost cell — the latter after
`get_text(strip=True).replace("$", "").strip()` — must parse as floats and
the date cell with `strptime("%b %d, %Y")`, any ValueError skipping the
row; success appends a `BCHydroDailyElectricity` with a same-day interval
(`is_estimate` left at its default, false). -/
def parseRow (row : HtmlRow) : Option BCHydroDailyElectricity :=
  if row.cells.length < 4 then none
  else
    match pyFloat (pyStrip (row.cells.getD 1 "")),
          pyFloat (pyStrip (pyRemoveDollar (pyStrip (row.cells.getD 2 "")))),
          pyStrptimeDate (pyStrip (row.cells.getD 0 "")) with
    | some consumption, some cost, some date =>
      some { consumption := consumption, cost := cost,
             interval := { start := date, «end» := date } }
    | _, _, _ => none

/-- The rate constants written inline in `_parse_consumption_data`
(src/api.py): current BC Hydro Step 1 / Step 2 rates and threshold. -/
def staticRates : BCHydroRates :=
  { step1_rate := 0.0954, step2_rate := 0.1427, threshold := 1332.0 }

/-- `BCHydroApi._check_for_errors` (src/api.py): select the visible error
alerts (`.alert.error:not(.hidden)`); if any, raise
`BCHydroAlertDialogException` carrying their stripped texts joined by
single spaces. -/
def check_for_errors (soup : Soup) : Except PyError Unit :=
  if soup.errorAlerts.isEmpty then .ok ()
  else .error (.alertDialogException ("Alert dialog detected: " ++
    String.intercalate " " (soup.errorAlerts.map pyStrip)))

/-- `BCHydroApi._parse_consumption_data` (src/api.py): locate the
`consumptionTable` element, raising `BCHydroInvalidHtmlException` when
absent; run the row loop over `find_all("tr")[1:]` (header row skipped),
collecting the rows `parseRow` accepts in order; raise
`BCHydroInvalidHtmlException` when none survive; otherwise build the
`BCHydroDailyUsage` from the cached account, the first row's start and
last row's end, the inline rate constants and the collected rows. -/
def parse_consumption_data (account : Option BCHydroAccount) (soup : Soup) :
    Except PyError BCHydroDailyUsage :=
  match soup.consumptionTable with
  | none => .error (.invalidHtmlException "Consumption table not found")
  | some table =>
    match (table.rows.drop 1).filterMap parseRow with
    | [] => .error (.invalidHtmlException "No valid consumption data found")
    | e :: es =>
      .ok { account := account
            interval :=
              { start := e.interval.start
                «end» := ((e :: es).getLast (List.cons_ne_nil e es)).interval.«end» }
            rates := staticRates
            electricity := e :: es }

/-- The validation/parsing stage of `refresh` (src/api.py): the two
consecutive calls `_check_for_errors(soup)` then
`_parse_consumption_data(soup)`. -/
def checkAndParse (account : Option BCHydroAccount) (soup : Soup) :
    Except PyError BCHydroDailyUsage :=
  match check_for_errors soup with
  | .error e => .error e
  | .ok _ => parse_consumption_data account soup

/-- The observable steps of `checkAndParse`, for stating *when* a failure
occurs: `alertScan` is the `soup.select(".alert.error:not(.hidden)")` call
of `_check_for_errors`, `tableLookup` the `soup.find(id="consumptionTable")`
call that opens `_parse_consumption_data`. -/
inductive ParseStep where
  | alertScan
  | tableLookup
deriving DecidableEq, Repr

/-- `checkAndParse` instrumented with the list of steps performed, in
execution order; the result component is the same computation.  The table
lookup is the first statement of `_parse_consumption_data`, so it is
performed whenever `_check_for_errors` returns. -/
def checkAndParseTraced (account : Option BCHydroAccount) (soup : Soup) :
    Except PyError BCHydroDailyUsage × List ParseStep :=
  match check_for_errors soup with
  | .error e => (.error e, [.alertScan])
  | .ok _ => (parse_consumption_data account soup, [.alertScan, .tableLookup])

/-! ### The stateful client (src/api.py) -/

/-- The mutable fields of `BCHydroApi` (src/api.py `__init__`) that the
authentication/refresh flow reads and writes.  `username`, `password` and
the browser handle `_driver` carry no data the flow inspects; what the
portal returns through the browser is supplied by the environment records
below. -/
structure ApiState where
  authenticated : Bool
  account : Option BCHydroAccount
  usage : Option BCHydroDailyUsage
  latest_point : Option BCHydroDailyElectricity
deriving DecidableEq, Repr

/-- The state `__init__` leaves behind: flag cleared, caches empty. -/
def initialApiState : ApiState :=
  { authenticated := false, account := none, usage := none, latest_point := none }

/-- What the portal presents during one `_authenticate` attempt:
`formError` is `some m` when the navigation / form-fill / submit steps
raise an exception with text `m` (and `none` when they succeed), and
`errorBanner` the text of a visible `.alert.error:not(.hidden)` element
appearing after submit, if any.  The account-chooser interaction sits in
its own `try: ... except Exception: pass`, so it cannot change the
outcome and is not modelled. -/
structure AuthEnv where
  formError : Option String
  errorBanner : Option String
deriving DecidableEq, Repr

/-- The inner banner check of `_authenticate` (src/api.py): wait up to 3s
for a visible `.alert.error:not(.hidden)`; if one appears, raise
`BCHydroAuthException("Login failed: " + its text)`; otherwise the wait
raises a selenium `TimeoutException`.  Either way the block raises — and
the surrounding `except Exception: pass` discards the outcome. -/
def bannerCheck (env : AuthEnv) : Except PyError Unit :=
  match env.errorBanner with
  | some text => .error (.authException ("Login failed: " ++ text))
  | none => .error (.webdriver "TimeoutException")

/-- `BCHydroApi._authenticate` (src/api.py), as the Python outcome (normal
return or raised exception) with the updated state.  Memoized no-op when
already authenticated.  The inner banner check's exception — including the
`BCHydroAuthException` raised on a visible banner — is caught by its own
`except Exception: pass`, so its result is discarded and a banner never
fails authentication; only a failure of the navigation/form/submit steps
reaches the outer handler, which clears the flag and re-raises
`BCHydroAuthException("Authentication failed: " + str(err))`. -/
def authenticate (env : AuthEnv) (s : ApiState) : Except PyError Unit × ApiState :=
  if s.authenticated then (.ok (), s)
  else
    match env.formError with
    | some m =>
      (.error (.authException ("Authentication failed: " ++ m)),
       { s with authenticated := false })
    | none =>
      let _discarded := bannerCheck env
      (.ok (), { s with authenticated := true })

/-- The fetch part of one `refresh` call: either a selenium-level failure
(clicking `ViewAndPayProfile` or waiting for `consumptionTableSection`
raised, with the exception's text), or the consumption-section markup,
already given as the `Soup` the two parsing helpers receive. -/
inductive FetchEnv where
  | failure (msg : String)
  | fragment (soup : Soup)
deriving DecidableEq, Repr

/-- What the portal presents during one `refresh` call. -/
structure RefreshEnv where
  auth : AuthEnv
  fetch : FetchEnv
deriving DecidableEq, Repr

/-- `BCHydroApi.refresh` (src/api.py).  When the flag is clear it calls
`_authenticate` first, outside the `try`, so an authentication failure
propagates exactly as `_authenticate` raised it.  Inside the `try`:
navigate and extract the fragment, `_check_for_errors`,
`_parse_consumption_data`, store the new usage, and — since the stored
usage object is always truthy — update the latest point to the last
electricity entry whenever that list is nonempty.  Any exception in the
`try` clears the authenticated flag and is re-raised as
`BCHydroAuthException("Failed to refresh data: " + str(err))`. -/
def refresh (env : RefreshEnv) (s : ApiState) : Except PyError Unit × ApiState :=
  match (if s.authenticated then (Except.ok (), s) else authenticate env.auth s) with
  | (.error e, s₀) => (.error e, s₀)
  | (.ok _, s₀) =>
    match env.fetch with
    | .failure m =>
      (.error (.authException ("Failed to refresh data: " ++ m)),
       { s₀ with authenticated := false })
    | .fragment soup =>
      match checkAndParse s₀.account soup with
      | .error e =>
        (.error (.authException ("Failed to refresh data: " ++ e.message)),
         { s₀ with authenticated := false })
      | .ok usage =>
        let s₁ := { s₀ with usage := some usage }
        (.ok (),
         if usage.electricity.isEmpty then s₁
         else { s₁ with latest_point := usage.electricity.getLast? })

/-- `BCHydroApi.get_latest_usage` (src/api.py): refresh when no latest
point is cached, then return its consumption, or 0.0 when still absent. -/
def get_latest_usage (env : RefreshEnv) (s : ApiState) : Except PyError ℚ × ApiState :=
  match s.latest_point with
  | some p => (.ok p.consumption, s)
  | none =>
    match refresh env s with
    | (.error e, s₁) => (.error e, s₁)
    | (.ok _, s₁) =>
      (.ok (match s₁.latest_point with | some p => p.consumption | none => 0), s₁)

/-- `BCHydroApi.get_latest_cost` (src/api.py): analogous. -/
def get_latest_cost (env : RefreshEnv) (s : ApiState) : Except PyError ℚ × ApiState :=
  match s.latest_point with
  | some p => (.ok p.cost, s)
  | none =>
    match refresh env s with
    | (.error e, s₁) => (.error e, s₁)
    | (.ok _, s₁) =>
      (.ok (match s₁.latest_point with | some p => p.cost | none => 0), s₁)

/-! ### The coordinator (src/coordinator.py) -/

/-- The attribute names a `BCHydroApi` instance defines (src/api.py): the
seven fields assigned in `__init__` and the methods of the class.  Any
other name raises `AttributeError` on access.  `latest_interval` is not
among them — the class only defines the method `get_latest_interval`. -/
def bchydroApiAttributeNames : List String :=
  ["username", "password", "_driver", "_authenticated",
   "_account", "_usage", "_latest_point",
   "_ensure_browser", "_authenticate", "refresh",
   "_check_for_errors", "_parse_consumption_data",
   "get_latest_usage", "get_latest_cost", "get_latest_interval",
   "__aenter__", "__aexit__"]

/-- The dictionary `_async_update_data` returns on success. -/
structure CoordinatorData where
  latest_usage : ℚ
  latest_cost : ℚ
  billing_period_end : Option Date
deriving DecidableEq, Repr

/-- `BCHydroCoordinator._async_update_data` (src/coordinator.py): refresh,
read the two accessors, then read the attribute `self.api.latest_interval`
— a name `BCHydroApi` does not define, so Python raises `AttributeError`
before any `billing_period_end` value can be produced; the blanket
`except Exception` turns every exception into
`UpdateFailed("Error fetching data: " + str(err))`, modelled here as the
error string. -/
def async_update_data (env : RefreshEnv) (s : ApiState) :
    Except String CoordinatorData × ApiState :=
  match refresh env s with
  | (.error e, s₁) => (.error ("Error fetching data: " ++ e.message), s₁)
  | (.ok _, s₁) =>
    match get_latest_usage env s₁ with
    | (.error e, s₂) => (.error ("Error fetching data: " ++ e.message), s₂)
    | (.ok u, s₂) =>
      match get_latest_cost env s₂ with
      | (.error e, s₃) => (.error ("Error fetching data: " ++ e.message), s₃)
      | (.ok c, s₃) =>
        if bchydroApiAttributeNames.contains "latest_interval" then
          (.ok { latest_usage := u, latest_cost := c, billing_period_end := none }, s₃)
        else
          (.error ("Error fetching data: " ++
            "'BCHydroApi' object has no attribute 'latest_interval'"), s₃)

/-! ### Concrete fixtures -/

/-- A well-formed consumption table: a header row and two data rows, as in
the end-to-end scenario of the specification. -/
def sampleTable : HtmlTable :=
  ⟨[⟨["Date", "Consumption", "Cost", "Notes"]⟩,
    ⟨["Jan 1, 2024", "10.5", "$1.00", ""]⟩,
    ⟨["Jan 2, 2024", "12.0", "$1.20", ""]⟩]⟩

/-- A document carrying `sampleTable` and no error alert. -/
def sampleSoup : Soup := ⟨[], some sampleTable⟩

/-- A run where authentication and the fetch succeed and the fragment is
`sampleSoup`. -/
def sampleEnv : RefreshEnv := ⟨⟨none, none⟩, .fragment sampleSoup⟩

/-! ### Helper lemmas about the parser -/

/-- A record accepted by `parseRow` carries the row's parsed date as both
interval endpoints, no billing-period end, and `is_estimate = false`. -/
theorem parseRow_shape (r : HtmlRow) (e : BCHydroDailyElectricity)
    (h : parseRow r = some e) :
    ∃ d, pyStrptimeDate (pyStrip (r.cells.getD 0 "")) = some d ∧
      e.interval.start = d ∧ e.interval.«end» = d ∧
      e.is_estimate = false ∧ e.interval.billing_period_end = none := by
  unfold parseRow at h
  split at h
  · exact absurd h (by simp)
  · split at h
    · rename_i consumption cost d hc hk hd
      injection h with h
      subst h
      exact ⟨d, hd, rfl, rfl, rfl, rfl⟩
    · exact absurd h (by simp)

/-- A row with fewer than 4 cells is rejected by `parseRow`. -/
theorem parseRow_short (r : HtmlRow) (h : r.cells.length < 4) : parseRow r = none := by
  unfold parseRow
  simp [h]

/-- `filterMap` keeps exactly the elements the function accepts. -/
theorem filterMap_length_eq_filter_length {α β : Type} (f : α → Option β) (l : List α) :
    (l.filterMap f).length = (l.filter (fun a => (f a).isSome)).length := by
  induction l with
  | nil => rfl
  | cons a as ih =>
    cases h : f a <;> simp [List.filterMap_cons, List.filter_cons, h, ih]

/-- What a successful `parse_consumption_data` returns, characterised in
terms of the body rows: the electricity list is the row loop's output, the
account and rates are passed through, and the aggregate interval spans the
first record's start to the last record's end. -/
theorem parse_ok_iff (account : Option BCHydroAccount) (soup : Soup)
    (table : HtmlTable) (ht : soup.consumptionTable = some table)
    (usage : BCHydroDailyUsage)
    (h : parse_consumption_data account soup = .ok usage) :
    usage.electricity = (table.rows.drop 1).filterMap parseRow ∧
    usage.account = account ∧ usage.rates = staticRates ∧
    ∃ hne : usage.electricity ≠ [],
      usage.interval.start = (usage.electricity.head hne).interval.start ∧
      usage.interval.«end» = (usage.electricity.getLast hne).interval.«end» ∧
      usage.interval.billing_period_end = none := by
  simp only [parse_consumption_data, ht] at h
  split at h
  · exact absurd h (by simp)
  · rename_i e es hcons
    injection h with h
    subst h
    refine ⟨hcons.symm, rfl, rfl, List.cons_ne_nil e es, rfl, ?_, rfl⟩
    rfl

/-- The instrumented pipeline computes the same result as the plain one. -/
theorem checkAndParseTraced_fst (account : Option BCHydroAccount) (soup : Soup) :
    (checkAndParseTraced account soup).1 = checkAndParse account soup := by
  cases hcfe : check_for_errors soup <;>
    simp [checkAndParseTraced, checkAndParse, hcfe]

/-- A successful `checkAndParse` never returns an empty electricity list. -/
theorem checkAndParse_ok_ne_nil (account : Option BCHydroAccount) (soup : Soup)
    (usage : BCHydroDailyUsage) (h : checkAndParse account soup = .ok usage) :
    usage.electricity ≠ [] := by
  unfold checkAndParse at h
  split at h
  · exact absurd h (by simp)
  · unfold parse_consumption_data at h
    split at h
    · exact absurd h (by simp)
    · split at h
      · exact absurd h (by simp)
      · rename_i e es hcons
        injection h with h
        subst h
        simp

/-! ### Helper lemmas about the stateful client -/

/-- When `_authenticate` raises, the caches are untouched and the
authenticated flag ends cleared. -/
theorem authenticate_error_state (env : AuthEnv) (s : ApiState) (e : PyError)
    (s' : ApiState) (h : authenticate env s = (.error e, s')) :
    s'.usage = s.usage ∧ s'.latest_point = s.latest_point ∧
    s'.account = s.account ∧ s'.authenticated = false := by
  unfold authenticate at h
  split at h
  · exact absurd h (by simp)
  · split at h
    · injection h with _ h2
      subst h2
      exact ⟨rfl, rfl, rfl, rfl⟩
    · exact absurd h (by simp)

/-- When `_authenticate` returns normally, the caches and account are
untouched. -/
theorem authenticate_ok_state (env : AuthEnv) (s : ApiState) (u : Unit)
    (s₀ : ApiState) (h : authenticate env s = (.ok u, s₀)) :
    s₀.usage = s.usage ∧ s₀.latest_point = s.latest_point ∧ s₀.account = s.account := by
  unfold authenticate at h
  split at h
  · injection h with _ h2
    subst h2
    exact ⟨rfl, rfl, rfl⟩
  · split at h
    · exact absurd h (by simp)
    · injection h with _ h2
      subst h2
      exact ⟨rfl, rfl, rfl⟩

/-- The pre-`try` authentication step of `refresh` preserves the caches
and account when it succeeds. -/
theorem preAuth_state (env : AuthEnv) (s : ApiState) (u : Unit) (s₀ : ApiState)
    (h : (if s.authenticated then (Except.ok (), s) else authenticate env s) = (.ok u, s₀)) :
    s₀.usage = s.usage ∧ s₀.latest_point = s.latest_point ∧ s₀.account = s.account := by
  split at h
  · injection h with _ h2
    subst h2
    exact ⟨rfl, rfl, rfl⟩
  · exact authenticate_ok_state env s u s₀ h

/-- A successful `refresh` through a markup fragment stores exactly the
output of the validation/parsing stage on the pre-call account, and
leaves the account unchanged. -/
theorem refresh_ok_usage (env : RefreshEnv) (s : ApiState) (soup : Soup) (s' : ApiState)
    (hf : env.fetch = .fragment soup) (h : refresh env s = (.ok (), s')) :
    ∃ usage, checkAndParse s.account soup = .ok usage ∧ s'.usage = some usage ∧
      s'.account = s.account := by
  unfold refresh at h
  split at h
  · exact absurd h (by simp)
  · rename_i u s₀ heq
    obtain ⟨hu, hl, ha⟩ := preAuth_state env.auth s u s₀ heq
    rw [hf] at h
    split at h
    · exact absurd h (by simp)
    · rename_i soup' hfrag
      injection hfrag with hfrag
      subst hfrag
      split at h
      · exact absurd h (by simp)
      · rename_i usage hcp
        injection h with _ h2
        subst h2
        refine ⟨usage, by rw [← ha]; exact hcp, ?_, ?_⟩
        · split <;> rfl
        · split <;> exact ha

/-- After a successful `refresh`, a latest point is cached: the parser
guarantees a nonempty electricity list, so the update of `_latest_point`
always fires. -/
theorem refresh_ok_latest_point (env : RefreshEnv) (s s' : ApiState)
    (h : refresh env s = (.ok (), s')) :
    ∃ p, s'.latest_point = some p := by
  unfold refresh at h
  split at h
  · exact absurd h (by simp)
  · rename_i u s₀ heq
    split at h
    · exact absurd h (by simp)
    · rename_i soup hfe
      split at h
      · exact absurd h (by simp)
      · rename_i usage hcp
        injection h with _ h2
        subst h2
        have hne := checkAndParse_ok_ne_nil s₀.account soup usage hcp
        have hemp : usage.electricity.isEmpty = false := by
          cases hc : usage.electricity with
          | nil => exact absurd hc hne
          | cons a l => rfl
        have hsome : usage.electricity.getLast?.isSome := by
          rw [List.getLast?_isSome]
          exact hne
        obtain ⟨p, hp⟩ := Option.isSome_iff_exists.1 hsome
        refine ⟨p, ?_⟩
        simp [hemp, hp]

/-! ### The claims -/

/-- C1: the claim states that a visible error banner after submit makes
`_authenticate` fail with `AuthError` carrying the banner text.  The code
contradicts this — and its own evident intent: the
`raise BCHydroAuthException(f"Login failed: {error_msg.text}")` sits
inside the very `try` whose blanket `except Exception: pass` follows, so
the exception is swallowed two lines after being raised and
authentication proceeds to set `_authenticated = True`.  This theorem
evaluates the embedded `_authenticate` at the failing input: a run whose
post-submit page shows a visible error banner ends with a normal return
and `authenticated = true`. -/
theorem claim_C1 :
    authenticate { formError := none, errorBanner := some "Invalid user ID or password" }
      initialApiState =
      (.ok (), { initialApiState with authenticated := true }) := rfl

/-- C2 (amended): a validation/parsing failure inside `refresh()` is not
suppressed, but it does not propagate as the underlying typed error
either: the blanket `except Exception` of `refresh` re-raises it as
`BCHydroAuthException` whose message is `"Failed to refresh data: "`
followed by the underlying error's message. -/
theorem claim_C2 (env : RefreshEnv) (s : ApiState) (soup : Soup)
    (hs : s.authenticated = true) (hf : env.fetch = .fragment soup)
    (e : PyError) (he : checkAndParse s.account soup = .error e) :
    (refresh env s).1 =
      .error (.authException ("Failed to refresh data: " ++ e.message)) := by
  simp only [refresh, hs, hf, he, if_true]

/-- C2 witness: the amended claim at a concrete run — an authenticated
client refreshing over an empty document. -/
theorem claim_C2_witness :
    (refresh ⟨⟨none, none⟩, .fragment emptySoup⟩
      { authenticated := true, account := none, usage := none, latest_point := none }).1 =
      .error (.authException ("Failed to refresh data: " ++
        (PyError.invalidHtmlException "Consumption table not found").message)) :=
  claim_C2 ⟨⟨none, none⟩, .fragment emptySoup⟩
    { authenticated := true, account := none, usage := none, latest_point := none }
    emptySoup rfl rfl (.invalidHtmlException "Consumption table not found") rfl

/-- C2 counterexample to the claim as stated: the parser's
`BCHydroInvalidHtmlException` for a missing table leaves `refresh` as a
`BCHydroAuthException` — the failure is re-wrapped into a different error
kind, with the underlying message embedded. -/
theorem claim_C2_counterexample :
    refresh ⟨⟨none, none⟩, .fragment emptySoup⟩
      { authenticated := true, account := none, usage := none, latest_point := none } =
      (.error (.authException "Failed to refresh data: Consumption table not found"),
       { authenticated := false, account := none, usage := none, latest_point := none }) := rfl

/-- C3: whenever `refresh()` succeeds, the coordinator's
`_async_update_data` still fails with `UpdateFailed`, because it reads
the attribute `latest_interval`, which `BCHydroApi` does not define (only
the method `get_latest_interval` exists), so the attribute access raises
`AttributeError` inside the blanket `except`. -/
theorem claim_C3 (env : RefreshEnv) (s : ApiState)
    (h : (refresh env s).1 = .ok ()) :
    (async_update_data env s).1 = .error ("Error fetching data: " ++
      "'BCHydroApi' object has no attribute 'latest_interval'") := by
  rcases hre : refresh env s with ⟨r, s₁⟩
  rw [hre] at h
  simp only at h
  subst h
  obtain ⟨p, hp⟩ := refresh_ok_latest_point env s s₁ hre
  have hcont : bchydroApiAttributeNames.contains "latest_interval" = false := by decide
  simp only [async_update_data, hre, get_latest_usage, get_latest_cost, hp, hcont]
  simp

/-- C3 witness: the coordinator update over a well-formed document (the
refresh itself succeeds) still fails. -/
theorem claim_C3_witness :
    (async_update_data sampleEnv initialApiState).1 =
      .error ("Error fetching data: " ++
        "'BCHydroApi' object has no attribute 'latest_interval'") :=
  claim_C3 sampleEnv initialApiState (by rfl)

/-- C4: for a table whose body rows yield N ≥ 1 well-formed records,
parsing succeeds with exactly those N records in row order (the output is
the row loop's `filterMap`, whose length equals the number of accepted
rows), every record has a same-day interval equal to its row's parsed
date with `is_estimate = false`, and the aggregate interval runs from the
first record's date to the last record's date. -/
theorem claim_C4 (account : Option BCHydroAccount) (soup : Soup)
    (table : HtmlTable) (ht : soup.consumptionTable = some table)
    (recs : List BCHydroDailyElectricity)
    (hrecs : recs = (table.rows.drop 1).filterMap parseRow)
    (hne : recs ≠ []) :
    ∃ usage, parse_consumption_data account soup = .ok usage ∧
      usage.electricity = recs ∧
      recs.length = ((table.rows.drop 1).filter (fun r => (parseRow r).isSome)).length ∧
      (∀ e ∈ usage.electricity, e.interval.start = e.interval.«end» ∧ e.is_estimate = false) ∧
      (∀ r ∈ table.rows.drop 1, ∀ e, parseRow r = some e →
        ∃ d, pyStrptimeDate (pyStrip (r.cells.getD 0 "")) = some d ∧
          e.interval.start = d ∧ e.interval.«end» = d) ∧
      usage.interval.start = (recs.head hne).interval.start ∧
      usage.interval.«end» = (recs.getLast hne).interval.«end» := by
  cases recs with
  | nil => exact absurd rfl hne
  | cons e es =>
    refine ⟨{ account := account,
              interval := { start := e.interval.start,
                            «end» := ((e :: es).getLast (List.cons_ne_nil e es)).interval.«end» },
              rates := staticRates,
              electricity := e :: es }, ?_, rfl, ?_, ?_, ?_, rfl, rfl⟩
    · simp only [parse_consumption_data, ht, ← hrecs]
    · rw [hrecs, filterMap_length_eq_filter_length]
    · intro x hx
      have hx' : x ∈ (table.rows.drop 1).filterMap parseRow := hrecs ▸ hx
      obtain ⟨r, _, hr⟩ := List.mem_filterMap.1 hx'
      obtain ⟨d, _, h1, h2, h3, _⟩ := parseRow_shape r x hr
      exact ⟨h1.trans h2.symm, h3⟩
    · intro r _ x hr
      obtain ⟨d, hd, h1, h2, _, _⟩ := parseRow_shape r x hr
      exact ⟨d, hd, h1, h2⟩

/-- C4 witness: the end-to-end table with two well-formed rows. -/
theorem claim_C4_witness :
    ∃ usage, parse_consumption_data none sampleSoup = .ok usage ∧
      usage.electricity = (sampleTable.rows.drop 1).filterMap parseRow ∧
      ((sampleTable.rows.drop 1).filterMap parseRow).length =
        ((sampleTable.rows.drop 1).filter (fun r => (parseRow r).isSome)).length ∧
      (∀ e ∈ usage.electricity, e.interval.start = e.interval.«end» ∧ e.is_estimate = false) ∧
      (∀ r ∈ sampleTable.rows.drop 1, ∀ e, parseRow r = some e →
        ∃ d, pyStrptimeDate (pyStrip (r.cells.getD 0 "")) = some d ∧
          e.interval.start = d ∧ e.interval.«end» = d) ∧
      usage.interval.start =
        (((sampleTable.rows.drop 1).filterMap parseRow).head (by decide)).interval.start ∧
      usage.interval.«end» =
        (((sampleTable.rows.drop 1).filterMap parseRow).getLast (by decide)).interval.«end» :=
  claim_C4 none sampleSoup sampleTable rfl _ rfl (by decide)

/-- C5: a document with at least one visible `.alert.error` element fails
the validation stage with `AlertDialogError` whose message is the
concatenation (space-joined, as the code builds it) of the stripped texts
of all matching elements — for every such document, so in particular even
when the consumption table is present and well-formed: the alert scan
runs before any structural validation. -/
theorem claim_C5 (account : Option BCHydroAccount) (soup : Soup)
    (ha : soup.errorAlerts ≠ []) :
    checkAndParse account soup =
      .error (.alertDialogException ("Alert dialog detected: " ++
        String.intercalate " " (soup.errorAlerts.map pyStrip))) := by
  have hne : soup.errorAlerts.isEmpty = false := by
    cases h : soup.errorAlerts with
    | nil => exact absurd h ha
    | cons a l => rfl
  simp only [checkAndParse, check_for_errors, hne, Bool.false_eq_true, if_false]

/-- C5 witness: a document carrying a visible alert and a perfectly
well-formed consumption table still fails with the alert-dialog error. -/
theorem claim_C5_witness :
    checkAndParse none { errorAlerts := [" Something went wrong "],
                         consumptionTable := some sampleTable } =
      .error (.alertDialogException ("Alert dialog detected: " ++
        String.intercalate " " ([" Something went wrong "].map pyStrip))) :=
  claim_C5 none { errorAlerts := [" Something went wrong "],
                  consumptionTable := some sampleTable } (by decide)

/-- C6: a table whose body rows all fail per-row validation (or a table
with only a header row) makes parsing fail with `InvalidHtmlError`
rather than return an empty record list. -/
theorem claim_C6 (account : Option BCHydroAccount) (soup : Soup)
    (table : HtmlTable) (ht : soup.consumptionTable = some table)
    (hz : (table.rows.drop 1).filterMap parseRow = []) :
    parse_consumption_data account soup =
      .error (.invalidHtmlException "No valid consumption data found") := by
  simp only [parse_consumption_data, ht, hz]

/-- C6 witness: a header-only table. -/
theorem claim_C6_witness :
    parse_consumption_data none
      { errorAlerts := [], consumptionTable := some ⟨[⟨["Date", "kWh", "Cost", "x"]⟩]⟩ } =
      .error (.invalidHtmlException "No valid consumption data found") :=
  claim_C6 none
    { errorAlerts := [], consumptionTable := some ⟨[⟨["Date", "kWh", "Cost", "x"]⟩]⟩ }
    ⟨[⟨["Date", "kWh", "Cost", "x"]⟩]⟩ rfl rfl

/-- C7 counterexample: the claim states the empty-input failure occurs
before any lookup of the consumption table.  The code has no emptiness
check at all: on the empty document the alert scan passes and
`_parse_consumption_data` is entered, so its opening
`soup.find(id="consumptionTable")` lookup IS performed, and the
`InvalidHtmlError` is that lookup's "Consumption table not found"
failure itself. -/
theorem claim_C7_counterexample :
    checkAndParseTraced none emptySoup =
      (.error (.invalidHtmlException "Consumption table not found"),
       [ParseStep.alertScan, ParseStep.tableLookup]) := rfl

/-- C7 (amended): the empty-string input does fail validation with
`InvalidHtmlError`, but the failure arises from the consumption-table
lookup itself ("Consumption table not found") — the lookup is performed,
there being no emptiness check before it. -/
theorem claim_C7 :
    (checkAndParseTraced none emptySoup).1 =
      .error (.invalidHtmlException "Consumption table not found") ∧
    ParseStep.tableLookup ∈ (checkAndParseTraced none emptySoup).2 :=
  ⟨rfl, by decide⟩

/-- C8: every failing `refresh()` — authentication failure, fetch failure
or parse failure — leaves the cached usage and latest point exactly as
they were and ends with the authenticated flag cleared, forcing re-login
on the next attempt. -/
theorem claim_C8 (env : RefreshEnv) (s s' : ApiState) (e : PyError)
    (h : refresh env s = (.error e, s')) :
    s'.usage = s.usage ∧ s'.latest_point = s.latest_point ∧ s'.authenticated = false := by
  unfold refresh at h
  split at h
  · rename_i e₀ s₀ heq
    injection h with h1 h2
    subst h2
    split at heq
    · exact absurd heq (by simp)
    · obtain ⟨hu, hl, _, ha⟩ := authenticate_error_state env.auth s e₀ _ heq
      exact ⟨hu, hl, ha⟩
  · rename_i u s₀ heq
    obtain ⟨hu, hl, ha⟩ := preAuth_state env.auth s u s₀ heq
    split at h
    · injection h with _ h2
      subst h2
      exact ⟨hu, hl, rfl⟩
    · split at h
      · injection h with _ h2
        subst h2
        exact ⟨hu, hl, rfl⟩
      · exact absurd h (by simp)

/-- C8 witness: a refresh whose authentication step fails leaves the
caches of the freshly initialised client untouched and the flag false. -/
theorem claim_C8_witness :
    ((refresh ⟨⟨some "timeout", none⟩, .failure "no session"⟩ initialApiState).2).usage =
      initialApiState.usage ∧
    ((refresh ⟨⟨some "timeout", none⟩, .failure "no session"⟩ initialApiState).2).latest_point =
      initialApiState.latest_point ∧
    ((refresh ⟨⟨some "timeout", none⟩, .failure "no session"⟩ initialApiState).2).authenticated =
      false :=
  claim_C8 ⟨⟨some "timeout", none⟩, .failure "no session"⟩ initialApiState
    (refresh ⟨⟨some "timeout", none⟩, .failure "no session"⟩ initialApiState).2
    (.authException "Authentication failed: timeout") (by rfl)

/-- C9: two successive successful `refresh()` calls over the same backing
markup cache structurally equal `DailyUsage` snapshots — equal as values,
hence the same record count, per-record values, aggregate interval and
rates. -/
theorem claim_C9 (env env' : RefreshEnv) (s s₁ s₂ : ApiState) (soup : Soup)
    (hf : env.fetch = .fragment soup) (hf' : env'.fetch = .fragment soup)
    (h₁ : refresh env s = (.ok (), s₁)) (h₂ : refresh env' s₁ = (.ok (), s₂)) :
    ∃ usage, s₁.usage = some usage ∧ s₂.usage = some usage := by
  obtain ⟨u₁, hcp₁, hu₁, ha₁⟩ := refresh_ok_usage env s soup s₁ hf h₁
  obtain ⟨u₂, hcp₂, hu₂, _⟩ := refresh_ok_usage env' s₁ soup s₂ hf' h₂
  rw [ha₁, hcp₁] at hcp₂
  injection hcp₂ with hcp₂
  exact ⟨u₁, hu₁, hcp₂ ▸ hu₂⟩

/-- C9 witness: refreshing twice over the sample document from the fresh
client yields the same cached snapshot. -/
theorem claim_C9_witness :
    ∃ usage, ((refresh sampleEnv initialApiState).2).usage = some usage ∧
      ((refresh sampleEnv (refresh sampleEnv initialApiState).2).2).usage = some usage :=
  claim_C9 sampleEnv sampleEnv initialApiState
    (refresh sampleEnv initialApiState).2
    (refresh sampleEnv (refresh sampleEnv initialApiState).2).2
    sampleSoup rfl rfl (by rfl) (by rfl)

/-- C10: a row whose cost cell reads `"$123.45"` parses to cost exactly
123.45 (the leading currency symbol removed, whitespace stripped); a row
with fewer than 4 cells is rejected by the row loop; and a successful
parse's output is exactly the row loop's `filterMap`, so rejected rows
contribute no record to it. -/
theorem claim_C10 :
    (∀ (r : HtmlRow) (e : BCHydroDailyElectricity),
        pyStrip (r.cells.getD 2 "") = "$123.45" →
        parseRow r = some e → e.cost = (123.45 : ℚ)) ∧
    (∀ r : HtmlRow, r.cells.length < 4 → parseRow r = none) ∧
    (∀ (account : Option BCHydroAccount) (soup : Soup) (table : HtmlTable),
        soup.consumptionTable = some table →
        ∀ usage, parse_consumption_data account soup = .ok usage →
          usage.electricity = (table.rows.drop 1).filterMap parseRow) := by
  refine ⟨?_, parseRow_short, ?_⟩
  · intro r e hc hp
    unfold parseRow at hp
    split at hp
    · exact absurd hp (by simp)
    · split at hp
      · rename_i consumption cost d hcons hcost hdate
        rw [hc] at hcost
        have hval : pyFloat (pyStrip (pyRemoveDollar "$123.45")) =
            some (mkRat 12345 100) := by decide
        rw [hval] at hcost
        injection hcost with hcost
        injection hp with hp
        subst hp
        show cost = (123.45 : ℚ)
        rw [← hcost, Rat.mkRat_eq_div]
        norm_num
      · exact absurd hp (by simp)
  · intro account soup table ht usage h
    exact (parse_ok_iff account soup table ht usage h).1

/-- C10 witness: a concrete well-formed row with cost cell `"$123.45"`
parses to cost 123.45, and a concrete 2-cell row is rejected. -/
theorem claim_C10_witness :
    (∃ e, parseRow ⟨["Jan 5, 2024", "10.5", "$123.45", ""]⟩ = some e ∧
       e.cost = (123.45 : ℚ)) ∧
    parseRow ⟨["Jan 5, 2024", "10.5"]⟩ = none := by
  constructor
  · refine ⟨_, rfl, claim_C10.1 ⟨["Jan 5, 2024", "10.5", "$123.45", ""]⟩ _ (by rfl) rfl⟩
  · exact claim_C10.2.1 ⟨["Jan 5, 2024", "10.5"]⟩ (by decide)

end BCHydro

